import Mathlib

/-!
# mybckchk: a MySQL backend checker

A shallow embedding of `mybckchk.go` and the properties of its health-check
cycle, its HTTP handler, its mode selection and its connection-string builder.

Conventions of the embedding

* The package variables `stateCache` and `debug` are passed explicitly.
* The logger and the database driver are effects.  A function that logs returns
  the entries it wrote; a function that talks to the driver returns the calls it
  made.  What the driver answers is a parameter: for the `i`-th iteration of the
  loop of `checkBackend` an `Attempt` records the error (if any) returned by
  `sql.Open`, `db.Ping`, `db.Prepare` and `QueryRow().Scan`.
* `checkBackend` uses the handle of `sql.Open` without reading the error.  When
  `sql.Open` returns an error the handle is nil and `db.Ping()` dereferences it:
  the cycle panics there and the process dies.  Calls on a handle that was
  opened are assumed to return.
* Go `int` fields are `Int`; no arithmetic is done on them, they are only
  printed.
-/

namespace Mybckchk

/-! ## Data model -/

/-- The record `configuration` of the source. -/
structure configuration where
  mysqlHost : String
  mysqlUser : String
  mysqlPass : String
  mysqlPort : Int
  mysqlDb : String
  listenPort : Int
  checkInterval : Int
deriving DecidableEq, Repr

/-- The record `command` of the source: a query and the value it must return. -/
structure command where
  query : String
  expect : String
deriving DecidableEq, Repr

/-! ## Logging -/

/-- Severity of a log line, one constructor per logger method the source calls. -/
inductive Level where
  | info
  | notice
  | error
  | critical
deriving DecidableEq, Repr

/-- One line written to the logger. -/
structure LogEntry where
  level : Level
  msg : String
deriving DecidableEq, Repr

/-- The function `debugLog`: an info line, written only in debug mode. -/
def debugLog (debug : Bool) (msg : String) : List LogEntry :=
  if debug then [⟨Level.info, msg⟩] else []

/-- The lines written by `if err != nil { logger.Error(err.Error()) }`. -/
def logIfErr (err : Option String) : List LogEntry :=
  match err with
  | some e => [⟨Level.error, e⟩]
  | none => []

/-! ## `fmt.Sprint` -/

/-- An operand handed to `fmt.Sprint`: the source passes strings and ints. -/
inductive Operand where
  | str (s : String)
  | int (n : Int)
deriving DecidableEq, Repr

/-- Whether the operand has kind string. -/
def Operand.isString : Operand → Bool
  | Operand.str _ => true
  | Operand.int _ => false

/-- The default format of an operand: a string as is, an int in decimal. -/
def Operand.format : Operand → String
  | Operand.str s => s
  | Operand.int n => toString n

/-- The printing loop of `fmt.Sprint`: a space is written between two operands
when neither is a string.  `first` says that no operand was printed yet and
`prevString` that the previous operand was a string. -/
def doPrint (first prevString : Bool) : List Operand → String
  | [] => ""
  | a :: rest =>
    let sep := if !first && !a.isString && !prevString then " " else ""
    sep ++ a.format ++ doPrint false a.isString rest

/-- The function `fmt.Sprint`. -/
def Sprint (a : List Operand) : String :=
  doPrint true false a

/-! ## The connection string -/

/-- The function `mysqlURIBuilder`: the data source name, and the debug line
that shows it. -/
def mysqlURIBuilder (debug : Bool) (config : configuration) : String × List LogEntry :=
  let uri :=
    if config.mysqlHost = "" then
      Sprint [.str config.mysqlUser, .str ":", .str config.mysqlPass, .str "@", .str "/",
        .str config.mysqlDb]
    else
      Sprint [.str config.mysqlUser, .str ":", .str config.mysqlPass, .str "@tcp(",
        .str config.mysqlHost, .str ":", .int config.mysqlPort, .str ")/", .str config.mysqlDb]
  (uri, debugLog debug uri)

/-! ## The HTTP handler -/

/-- What the handler can see of a request. -/
structure Request where
  method : String
  path : String
  body : String
deriving DecidableEq, Repr

/-- The state of an `http.ResponseWriter`: the status line, once written, and
the body written so far. -/
structure ResponseWriter where
  status : Option Nat
  body : String
deriving DecidableEq, Repr

/-- The writer a handler receives: nothing written yet. -/
def ResponseWriter.fresh : ResponseWriter :=
  ⟨none, ""⟩

/-- The method `WriteHeader`: the first status code written is the one sent. -/
def ResponseWriter.WriteHeader (w : ResponseWriter) (code : Nat) : ResponseWriter :=
  match w.status with
  | some _ => w
  | none => { w with status := some code }

/-- The method `Write`: sends status 200 if no status was written, then appends
to the body. -/
def ResponseWriter.Write (w : ResponseWriter) (data : String) : ResponseWriter :=
  let w1 := w.WriteHeader 200
  { w1 with body := w1.body ++ data }

/-- The constant `http.StatusOK`. -/
def StatusOK : Nat := 200

/-- The constant `http.StatusInternalServerError`. -/
def StatusInternalServerError : Nat := 500

/-- The function `baseHandler`. -/
def baseHandler (stateCache : Bool) (w : ResponseWriter) (_r : Request) : ResponseWriter :=
  if stateCache then
    (w.WriteHeader StatusOK).Write "OK"
  else
    (w.WriteHeader StatusInternalServerError).Write "NOT OK"

/-! ## The database driver -/

/-- What the driver answers during one iteration of the loop of `checkBackend`:
the error of `sql.Open`, of `db.Ping` and of `db.Prepare` (`none` when the call
succeeds), and what `QueryRow().Scan(&result)` does when it is reached: it
either stores a value in `result` or returns an error and stores nothing.  When
`openErr` is an error the handle is nil and the other three are never asked. -/
structure Attempt where
  openErr : Option String
  pingErr : Option String
  prepareErr : Option String
  scan : Except String String

/-- The behaviour of the database during one cycle: the answers met by the
iteration at each position of the loop. -/
abbrev Database := Nat → Attempt

/-- A call made to the driver; the number is the position of the iteration that
opened the handle. -/
inductive DbCall where
  | sqlOpen (handle : Nat) (driverName : String) (dataSourceName : String)
  | ping (handle : Nat)
  | prepare (handle : Nat) (query : String)
  | queryRowScan (handle : Nat)
  | close (handle : Nat)
deriving DecidableEq, Repr

/-- The queries among a sequence of driver calls, in the order of the calls. -/
def preparedQueries : List DbCall → List String
  | [] => []
  | DbCall.prepare _ q :: rest => q :: preparedQueries rest
  | _ :: rest => preparedQueries rest

/-- The value a query returns: `none` when `Prepare` or `Scan` fails. -/
def Attempt.value (a : Attempt) : Option String :=
  match a.prepareErr with
  | some _ => none
  | none =>
    match a.scan with
    | Except.ok v => some v
    | Except.error _ => none

/-- The query fails: a prepare error or a scan error. -/
def Attempt.queryFails (a : Attempt) : Bool :=
  a.value.isNone

/-- Connection, ping, prepare and scalar query all succeed. -/
def Attempt.succeeds (a : Attempt) : Bool :=
  a.openErr.isNone && a.pingErr.isNone && a.value.isSome

/-- An attempt in which everything succeeds and the query returns `v`. -/
def Attempt.returns (v : String) : Attempt :=
  ⟨none, none, none, Except.ok v⟩

/-- An attempt against a database that is down: the connection cannot be
established, so `Ping` and `Prepare` both return the error `e`. -/
def Attempt.down (e : String) : Attempt :=
  ⟨none, some e, some e, Except.error e⟩

/-! ## The check cycle -/

/-- The variables of `checkBackend` that live across the iterations of its
loop, with the log lines and driver calls made so far, the number of handles
opened so far, and whether the cycle has panicked. -/
structure CheckState where
  result : String
  checkOK : Bool
  log : List LogEntry
  calls : List DbCall
  opened : Nat
  panicked : Bool

/-- The body of the loop of `checkBackend`, for the command at position `i`. -/
def checkCommand (debug : Bool) (config : configuration) (st : CheckState) (i : Nat)
    (cmd : command) (a : Attempt) : CheckState :=
  let (connecturi, uriLog) := mysqlURIBuilder debug config
  -- db, err := sql.Open("mysql", connecturi); err is assigned again before it is read
  let calls := st.calls ++ [DbCall.sqlOpen i "mysql" connecturi]
  let log := st.log ++ uriLog ++ debugLog debug cmd.query
  match a.openErr with
  | some _ =>
    -- db is nil: err = db.Ping() dereferences it and panics
    { st with log := log, calls := calls, panicked := true }
  | none =>
    -- err = db.Ping()
    let calls := calls ++ [DbCall.ping i]
    let err := a.pingErr
    let log := log ++ logIfErr err
    -- sqlRes, err := db.Prepare(command.query)
    let calls := calls ++ [DbCall.prepare i cmd.query]
    let err := a.prepareErr
    let (result, err, log, calls) :=
      match err with
      | some e => (st.result, some e, log ++ [⟨Level.error, e⟩], calls)
      | none =>
        -- err = sqlRes.QueryRow().Scan(&result)
        match a.scan with
        | Except.ok v => (v, none, log, calls ++ [DbCall.queryRowScan i])
        | Except.error e => (st.result, some e, log, calls ++ [DbCall.queryRowScan i])
    let log := log ++ logIfErr err
    let log := log ++ debugLog debug result ++ debugLog debug cmd.expect
    let checkOK := if result ≠ cmd.expect then false else st.checkOK
    { result := result, checkOK := checkOK, log := log, calls := calls,
      opened := st.opened + 1, panicked := st.panicked }

/-- The loop `for _, command := range commands` of `checkBackend`, from
position `i` on.  A panic ends it: no later iteration runs. -/
def checkLoop (debug : Bool) (config : configuration) (db : Database) :
    List command → Nat → CheckState → CheckState
  | [], _, st => st
  | cmd :: rest, i, st =>
    if st.panicked then st
    else checkLoop debug config db rest (i + 1) (checkCommand debug config st i cmd (db i))

/-- The state of the loop variables when the loop is entered. -/
def CheckState.init (debug : Bool) : CheckState :=
  { result := "", checkOK := true, log := debugLog debug "Running checks", calls := [],
    opened := 0, panicked := false }

/-- The deferred `db.Close()` calls on the `n` handles that were opened, run
when `checkBackend` returns or panics: last deferred first. -/
def deferredCloses (n : Nat) : List DbCall :=
  ((List.range n).map DbCall.close).reverse

/-- What one run of `checkBackend` leaves behind: the value of `stateCache`,
the lines logged, the driver calls made, and whether the run ended in a panic
instead of returning. -/
structure Cycle where
  stateCache : Bool
  log : List LogEntry
  calls : List DbCall
  panicked : Bool

/-- The function `checkBackend`; the argument `stateCache` is the value of the
package variable when the cycle starts. -/
def checkBackend (debug : Bool) (config : configuration) (commands : List command)
    (db : Database) (stateCache : Bool) : Cycle :=
  let preCheckState := stateCache
  let st := checkLoop debug config db commands 0 (CheckState.init debug)
  if st.panicked then
    -- the assignment of line 114 is never reached
    { stateCache := stateCache, log := st.log, calls := st.calls ++ deferredCloses st.opened,
      panicked := true }
  else
    let stateCache := st.checkOK
    let log :=
      if preCheckState ≠ stateCache then
        if stateCache then
          st.log ++ [⟨Level.notice, "Backend state changed: Backend enabled"⟩]
        else
          st.log ++ [⟨Level.notice, "Backend state changed: Backend disabled"⟩]
      else st.log
    { stateCache := stateCache, log := log, calls := st.calls ++ deferredCloses st.opened,
      panicked := false }

/-- The state of the loop variables after the first `n` commands of a cycle. -/
def stateAfter (debug : Bool) (config : configuration) (commands : List command)
    (db : Database) (n : Nat) : CheckState :=
  checkLoop debug config db (commands.take n) 0 (CheckState.init debug)

/-- The value left in `result` by the most recent of the first `n` iterations
whose query succeeded, the empty string when there is none. -/
def leftover (db : Database) : Nat → String
  | 0 => ""
  | n + 1 =>
    match (db n).value with
    | some v => v
    | none => leftover db n

/-! ## Start-up and the running process -/

/-- The command-line flags read by `main`. -/
structure Flags where
  cfg : String
  debug : Bool
  enable : Bool
  disable : Bool
deriving DecidableEq, Repr

/-- The process as `main` leaves it: the package variables, the lines `main`
wrote, the status the process ended with if it has ended, whether the goroutine
`checkController` was started, and the address handed to
`http.ListenAndServe` if it was called. -/
structure Process where
  debug : Bool
  stateCache : Bool
  log : List LogEntry
  exitStatus : Option Nat
  scheduler : Bool
  listening : Option String

/-- The function `main`, after `configure` has returned `config` (the commands
it returns are only handed on to `checkController`). -/
def main (flags : Flags) (config : configuration) : Process :=
  let debug := false
  let stateCache := false
  let (debug, log) :=
    if flags.debug then (true, [(⟨Level.notice, "Debug mode enabled"⟩ : LogEntry)])
    else (debug, [])
  let log := log ++ [⟨Level.notice, "Configuration loaded"⟩]
  if flags.enable && flags.disable then
    { debug := debug, stateCache := stateCache,
      log := log ++ [⟨Level.error, "-enable and -disable can't used both."⟩],
      exitStatus := some 1, scheduler := false, listening := none }
  else
    let (stateCache, log, scheduler) :=
      if flags.enable then
        (true, log ++ [⟨Level.notice, "Always reporting available backend"⟩], false)
      else if flags.disable then
        (stateCache, log ++ [⟨Level.notice, "Always reporting unavailable backend"⟩], false)
      else
        (stateCache, log, true)
    let listenOn := Sprint [.str ":", .int config.listenPort]
    { debug := debug, stateCache := stateCache, log := log, exitStatus := none,
      scheduler := scheduler, listening := some listenOn }

/-- What happens to the process after start-up: the ticker of `checkController`
fires, with the database behaving as `db` during the cycle, or a request
arrives. -/
inductive Event where
  | tick (db : Database)
  | request (r : Request)

/-- The function `checkController`, for one firing of its ticker: a run of
`checkBackend` on the package variables.  A panic of the run is not recovered:
the process dies with the status 2 of the Go runtime. -/
def checkController (config : configuration) (commands : List command) (db : Database)
    (p : Process) : Process :=
  let c := checkBackend p.debug config commands db p.stateCache
  let status := if c.panicked then some 2 else p.exitStatus
  { p with stateCache := c.stateCache, log := p.log ++ c.log, exitStatus := status }

/-- One event.  A tick reaches `checkController` when `main` started it; a
request is answered by `baseHandler` when the server listens. -/
def Process.step (config : configuration) (commands : List command) (p : Process) :
    Event → Process × Option ResponseWriter
  | Event.tick db =>
    if p.exitStatus.isNone && p.scheduler then (checkController config commands db p, none)
    else (p, none)
  | Event.request r =>
    if p.exitStatus.isNone && p.listening.isSome then
      (p, some (baseHandler p.stateCache ResponseWriter.fresh r))
    else (p, none)

/-- A sequence of events: the final process and the responses sent, in order. -/
def Process.run (config : configuration) (commands : List command) :
    Process → List Event → Process × List ResponseWriter
  | p, [] => (p, [])
  | p, e :: es =>
    let (p1, out) := p.step config commands e
    let (p2, outs) := Process.run config commands p1 es
    (p2, out.toList ++ outs)

/-! ## Sample inputs -/

/-- The number of requests among some events. -/
def requestCount : List Event → Nat
  | [] => 0
  | Event.request _ :: es => requestCount es + 1
  | Event.tick _ :: es => requestCount es

/-- The behaviour of a database whose answer depends only on the query it is
sent, during a cycle that runs `commands`. -/
def Database.ofQueries (answer : String → Attempt) (commands : List command) : Database :=
  fun i =>
    match commands.get? i with
    | some cmd => answer cmd.query
    | none => Attempt.down "no such command"

/-- A configuration that connects over TCP. -/
def sampleConfig : configuration :=
  { mysqlHost := "db1", mysqlUser := "probe", mysqlPass := "secret", mysqlPort := 3306,
    mysqlDb := "health", listenPort := 9200, checkInterval := 1000 }

/-- Two commands that expect different values. -/
def sampleCommands : List command :=
  [⟨"SELECT 1", "1"⟩, ⟨"SELECT 2", "2"⟩]

/-- A database that is up and answers both of `sampleCommands` as expected. -/
def healthyDb : Database :=
  fun i => if i = 0 then Attempt.returns "1" else Attempt.returns "2"

/-- Two commands that expect the same value. -/
def replicaCommands : List command :=
  [⟨"SELECT 1", "1"⟩, ⟨"SELECT @@global.read_only", "1"⟩]

/-- A database that answers the first command of a cycle with `1` and is down
when the second command connects. -/
def failingDb : Database :=
  fun i => if i = 0 then Attempt.returns "1" else Attempt.down "connection refused"

/-- A command whose `expect` key is empty. -/
def emptyExpectCommands : List command :=
  [⟨"SELECT 1 FROM missing", ""⟩]

/-- A database that is down during the whole cycle. -/
def downDb : Database :=
  fun _ => Attempt.down "connection refused"

/-- A configuration whose database name holds a slash. -/
def slashConfig : configuration :=
  { mysqlHost := "db1", mysqlUser := "probe", mysqlPass := "secret", mysqlPort := 3306,
    mysqlDb := "health/2024", listenPort := 9200, checkInterval := 1000 }

/-- A driver that rejects the data source name: every `sql.Open` returns an
error. -/
def rejectingDb : Database :=
  fun _ => ⟨some "invalid DSN: did you forget to escape a param value?", none, none,
    Except.ok "1"⟩

/-- A database that answers `SELECT 1` with `1` and fails every other query
with a scan error. -/
def answerOnlySelectOne (query : String) : Attempt :=
  if query = "SELECT 1" then Attempt.returns "1"
  else ⟨none, none, none, Except.error "sql: no rows in result set"⟩

/-- A database in which the first query returns `up` and the second query is
rejected when it is prepared. -/
def staleDb : Database :=
  fun i =>
    if i = 0 then Attempt.returns "up"
    else ⟨none, none, some "Error 1146: Table health.missing does not exist", Except.error ""⟩

/-- Two commands that both expect `up`. -/
def staleCommands : List command :=
  [⟨"SELECT state FROM primary_node", "up"⟩, ⟨"SELECT state FROM missing", "up"⟩]

/-! ## The loop body and the loop: lemmas -/

theorem checkCommand_result (debug : Bool) (config : configuration) (st : CheckState) (i : Nat)
    (cmd : command) (a : Attempt) (hopen : a.openErr = none) :
    (checkCommand debug config st i cmd a).result = a.value.getD st.result := by
  obtain ⟨oe, pe, qe, sc⟩ := a
  simp only at hopen
  subst hopen
  cases qe <;> cases sc <;> simp [checkCommand, Attempt.value]

theorem checkCommand_checkOK (debug : Bool) (config : configuration) (st : CheckState) (i : Nat)
    (cmd : command) (a : Attempt) (hopen : a.openErr = none) :
    (checkCommand debug config st i cmd a).checkOK =
      (decide (a.value.getD st.result = cmd.expect) && st.checkOK) := by
  obtain ⟨oe, pe, qe, sc⟩ := a
  simp only at hopen
  subst hopen
  cases qe <;> cases sc <;> simp [checkCommand, Attempt.value]

theorem checkCommand_panicked (debug : Bool) (config : configuration) (st : CheckState)
    (i : Nat) (cmd : command) (a : Attempt) :
    (checkCommand debug config st i cmd a).panicked = (a.openErr.isSome || st.panicked) := by
  obtain ⟨oe, pe, qe, sc⟩ := a
  cases oe <;> cases qe <;> cases sc <;> simp [checkCommand]

theorem preparedQueries_append (xs ys : List DbCall) :
    preparedQueries (xs ++ ys) = preparedQueries xs ++ preparedQueries ys := by
  induction xs with
  | nil => rfl
  | cons x xs ih => cases x <;> simp [preparedQueries, ih]

theorem checkCommand_preparedQueries (debug : Bool) (config : configuration) (st : CheckState)
    (i : Nat) (cmd : command) (a : Attempt) (hopen : a.openErr = none) :
    preparedQueries (checkCommand debug config st i cmd a).calls =
      preparedQueries st.calls ++ [cmd.query] := by
  obtain ⟨oe, pe, qe, sc⟩ := a
  simp only at hopen
  subst hopen
  cases qe <;> cases sc <;> simp [checkCommand, preparedQueries_append, preparedQueries]

theorem checkLoop_of_panicked (debug : Bool) (config : configuration) (db : Database)
    (cmds : List command) (i : Nat) (st : CheckState) (hst : st.panicked = true) :
    checkLoop debug config db cmds i st = st := by
  cases cmds with
  | nil => rfl
  | cons c cs => simp [checkLoop, hst]

theorem checkLoop_append (debug : Bool) (config : configuration) (db : Database)
    (xs ys : List command) (i : Nat) (st : CheckState) :
    checkLoop debug config db (xs ++ ys) i st =
      checkLoop debug config db ys (i + xs.length) (checkLoop debug config db xs i st) := by
  induction xs generalizing i st with
  | nil => simp [checkLoop]
  | cons x xs ih =>
    show checkLoop debug config db (x :: (xs ++ ys)) i st = _
    cases hst : st.panicked with
    | true =>
      rw [checkLoop_of_panicked _ _ _ _ _ _ hst, checkLoop_of_panicked _ _ _ _ _ _ hst,
        checkLoop_of_panicked _ _ _ _ _ _ hst]
    | false =>
      simp only [checkLoop, hst, Bool.false_eq_true, if_false]
      rw [ih, List.length_cons, show i + 1 + xs.length = i + (xs.length + 1) by omega]

theorem preparedQueries_deferredCloses (n : Nat) : preparedQueries (deferredCloses n) = [] := by
  have h : ∀ xs : List Nat, preparedQueries (xs.map DbCall.close) = [] := by
    intro xs
    induction xs with
    | nil => rfl
    | cons x xs ih => simpa [preparedQueries] using ih
  unfold deferredCloses
  rw [← List.map_reverse]
  exact h _

theorem checkLoop_preparedQueries (debug : Bool) (config : configuration) (db : Database)
    (cmds : List command) (i : Nat) (st : CheckState) (hst : st.panicked = false)
    (hopen : ∀ j, j < cmds.length → (db (i + j)).openErr = none) :
    (checkLoop debug config db cmds i st).panicked = false ∧
      preparedQueries (checkLoop debug config db cmds i st).calls =
        preparedQueries st.calls ++ cmds.map command.query := by
  induction cmds generalizing i st with
  | nil => simp [checkLoop, hst]
  | cons c cs ih =>
    have h0 : (db i).openErr = none := by simpa using hopen 0 (by simp)
    have hrest : ∀ j, j < cs.length → (db (i + 1 + j)).openErr = none := by
      intro j hj
      have := hopen (j + 1) (by simpa using hj)
      rwa [show i + (j + 1) = i + 1 + j by omega] at this
    have hp : (checkCommand debug config st i c (db i)).panicked = false := by
      rw [checkCommand_panicked, h0, hst]
      rfl
    have := ih (i + 1) _ hp hrest
    simp only [checkLoop, hst, Bool.false_eq_true, if_false]
    refine ⟨this.1, ?_⟩
    rw [this.2, checkCommand_preparedQueries _ _ _ _ _ _ h0]
    simp

theorem checkLoop_checkOK (debug : Bool) (config : configuration) (db : Database)
    (cmds : List command) (i : Nat) (st : CheckState) (hst : st.panicked = false)
    (hsucc : ∀ j, j < cmds.length → (db (i + j)).succeeds = true) :
    (checkLoop debug config db cmds i st).panicked = false ∧
      ((checkLoop debug config db cmds i st).checkOK = true ↔
        st.checkOK = true ∧
          ∀ j (h : j < cmds.length), (db (i + j)).value = some (cmds.get ⟨j, h⟩).expect) := by
  induction cmds generalizing i st with
  | nil => simp [checkLoop, hst]
  | cons c cs ih =>
    have hrest : ∀ j, j < cs.length → (db (i + 1 + j)).succeeds = true := by
      intro j hj
      have := hsucc (j + 1) (by simpa using hj)
      rwa [show i + (j + 1) = i + 1 + j by omega] at this
    have h0 := hsucc 0 (by simp)
    simp only [Nat.add_zero, Attempt.succeeds, Bool.and_eq_true, Option.isNone_iff_eq_none]
      at h0
    obtain ⟨⟨hopen, -⟩, hsome⟩ := h0
    obtain ⟨v, hv⟩ := Option.isSome_iff_exists.mp hsome
    have hp : (checkCommand debug config st i c (db i)).panicked = false := by
      rw [checkCommand_panicked, hopen, hst]
      rfl
    have hrec := ih (i + 1) _ hp hrest
    simp only [checkLoop, hst, Bool.false_eq_true, if_false]
    refine ⟨hrec.1, ?_⟩
    rw [hrec.2, checkCommand_checkOK _ _ _ _ _ _ hopen]
    constructor
    · rintro ⟨h1, h2⟩
      simp only [hv, Option.getD_some, Bool.and_eq_true, decide_eq_true_eq] at h1
      refine ⟨h1.2, ?_⟩
      intro j hj
      cases j with
      | zero => simp [hv, h1.1]
      | succ k =>
        have := h2 k (by simpa using hj)
        rw [show i + (k + 1) = i + 1 + k by omega]
        simpa using this
    · rintro ⟨h1, h2⟩
      have e0 := h2 0 (by simp)
      simp only [Nat.add_zero, hv, List.get_eq_getElem, List.getElem_cons_zero,
        Option.some.injEq] at e0
      refine ⟨by simp [hv, e0, h1], ?_⟩
      intro j hj
      have := h2 (j + 1) (by simpa using hj)
      rw [show i + (j + 1) = i + 1 + j by omega] at this
      simpa using this

theorem stateAfter_succ (debug : Bool) (config : configuration) (commands : List command)
    (db : Database) (n : Nat) (h : n < commands.length)
    (hp : (stateAfter debug config commands db n).panicked = false) :
    stateAfter debug config commands db (n + 1) =
      checkCommand debug config (stateAfter debug config commands db n) n
        (commands.get ⟨n, h⟩) (db n) := by
  unfold stateAfter at hp ⊢
  have ht : commands.take (n + 1) = commands.take n ++ [commands.get ⟨n, h⟩] := by
    rw [List.take_succ, List.getElem?_eq_getElem h]
    rfl
  rw [ht, checkLoop_append]
  have hl : (commands.take n).length = n := by
    rw [List.length_take]
    exact Nat.min_eq_left (Nat.le_of_lt h)
  rw [hl, Nat.zero_add]
  simp only [checkLoop, hp, Bool.false_eq_true, if_false]

theorem stateAfter_reached (debug : Bool) (config : configuration) (commands : List command)
    (db : Database) (n : Nat) (h : n ≤ commands.length)
    (hopen : ∀ j, j < n → (db j).openErr = none) :
    (stateAfter debug config commands db n).panicked = false ∧
      (stateAfter debug config commands db n).result = leftover db n := by
  induction n with
  | zero => simp [stateAfter, checkLoop, CheckState.init, leftover]
  | succ k ih =>
    have hk := ih (by omega) (fun j hj => hopen j (by omega))
    have ho : (db k).openErr = none := hopen k (by omega)
    rw [stateAfter_succ debug config commands db k (by omega) hk.1, checkCommand_panicked,
      checkCommand_result _ _ _ _ _ _ ho, hk.1, hk.2, ho, leftover]
    refine ⟨rfl, ?_⟩
    cases (db k).value <;> rfl

theorem stateAfter_length (debug : Bool) (config : configuration) (commands : List command)
    (db : Database) :
    stateAfter debug config commands db commands.length =
      checkLoop debug config db commands 0 (CheckState.init debug) := by
  simp [stateAfter]

theorem baseHandler_state (stateCache : Bool) (r : Request) :
    baseHandler stateCache ResponseWriter.fresh r =
      (if stateCache then ⟨some 200, "OK"⟩ else ⟨some 500, "NOT OK"⟩) := by
  cases stateCache <;> rfl

/-! ## The connection string: properties -/

/-- C6: the data source name is `user:password@/db` when `mysqlHost` is empty
and `user:password@tcp(host:port)/db`, the port in decimal, otherwise; with an
empty host the port does not change it, and `listenPort` and `checkInterval`
never do. -/
theorem mysqlURIBuilder_spec (debug : Bool) (c : configuration) :
    (mysqlURIBuilder debug c).1 =
      (if c.mysqlHost = "" then
        c.mysqlUser ++ ":" ++ c.mysqlPass ++ "@/" ++ c.mysqlDb
      else
        c.mysqlUser ++ ":" ++ c.mysqlPass ++ "@tcp(" ++ c.mysqlHost ++ ":" ++
          toString c.mysqlPort ++ ")/" ++ c.mysqlDb)
    ∧ (∀ p : Int, (mysqlURIBuilder debug { c with mysqlHost := "", mysqlPort := p }).1 =
        (mysqlURIBuilder debug { c with mysqlHost := "" }).1)
    ∧ (∀ lp ci : Int, (mysqlURIBuilder debug { c with listenPort := lp, checkInterval := ci }).1 =
        (mysqlURIBuilder debug c).1) := by
  refine ⟨?_, ?_, ?_⟩
  · unfold mysqlURIBuilder
    by_cases h : c.mysqlHost = ""
    · simp [h, Sprint, doPrint, Operand.isString, Operand.format, String.append_assoc]
      rfl
    · simp [h, Sprint, doPrint, Operand.isString, Operand.format, String.append_assoc]
  · intro p
    simp [mysqlURIBuilder]
  · intro lp ci
    simp [mysqlURIBuilder]

/-! ## The HTTP handler: properties -/

/-- C2: `baseHandler` answers status 200 with body `OK` when the state is true
and status 500 with body `NOT OK` when it is false, whatever the request. -/
theorem baseHandler_spec (stateCache : Bool) (r : Request) :
    baseHandler stateCache ResponseWriter.fresh r =
        (if stateCache then ⟨some 200, "OK"⟩ else ⟨some 500, "NOT OK"⟩)
    ∧ ∀ r2 : Request,
        baseHandler stateCache ResponseWriter.fresh r2 =
          baseHandler stateCache ResponseWriter.fresh r := by
  cases stateCache <;> exact ⟨rfl, fun _ => rfl⟩

/-! ## The check cycle: properties -/

/-- C1: when connection, ping, prepare and query succeed for every command, a
run of `checkBackend` sets the state to true exactly when every command's
returned value equals its `expect`; with no command the state is set to true. -/
theorem checkBackend_available_iff (debug : Bool) (config : configuration)
    (commands : List command) (db : Database) (pre : Bool)
    (hsucc : ∀ i, i < commands.length → (db i).succeeds = true) :
    ((checkBackend debug config commands db pre).stateCache = true ↔
        ∀ i (h : i < commands.length), (db i).value = some (commands.get ⟨i, h⟩).expect)
    ∧ (checkBackend debug config [] db pre).stateCache = true := by
  have hsucc0 : ∀ j, j < commands.length → (db (0 + j)).succeeds = true := by
    intro j hj
    simpa using hsucc j hj
  have hloop := checkLoop_checkOK debug config db commands 0 (CheckState.init debug) rfl hsucc0
  refine ⟨?_, by simp [checkBackend, checkLoop, CheckState.init]⟩
  have hstate : (checkBackend debug config commands db pre).stateCache =
      (checkLoop debug config db commands 0 (CheckState.init debug)).checkOK := by
    simp [checkBackend, hloop.1]
  rw [hstate, hloop.2]
  simp [CheckState.init]

/-- Witness for C1: both sample commands are answered as expected. -/
theorem checkBackend_available_iff_witness :
    (∀ i, i < sampleCommands.length → (healthyDb i).succeeds = true)
    ∧ (((checkBackend false sampleConfig sampleCommands healthyDb false).stateCache = true ↔
        ∀ i (h : i < sampleCommands.length),
          (healthyDb i).value = some (sampleCommands.get ⟨i, h⟩).expect)
      ∧ (checkBackend false sampleConfig [] healthyDb false).stateCache = true) :=
  ⟨by decide,
    checkBackend_available_iff false sampleConfig sampleCommands healthyDb false (by decide)⟩

/-- C3, evaluated: the connection for the second command fails, and for the
only command of a second list, yet `checkBackend` sets the state to true. -/
theorem checkBackend_connection_failure_available :
    (failingDb 1).pingErr.isSome = true ∧ (failingDb 1).prepareErr.isSome = true
    ∧ (checkBackend false sampleConfig replicaCommands failingDb false).stateCache = true
    ∧ (checkBackend false sampleConfig emptyExpectCommands downDb false).stateCache = true := by
  decide

/-- C4, evaluated: two commands and a database that answers each query the
same way in both runs; the state is true in one order and false in the other. -/
theorem checkBackend_order_dependent :
    List.Perm replicaCommands.reverse replicaCommands
    ∧ (checkBackend false sampleConfig replicaCommands
        (Database.ofQueries answerOnlySelectOne replicaCommands) false).stateCache = true
    ∧ (checkBackend false sampleConfig replicaCommands.reverse
        (Database.ofQueries answerOnlySelectOne replicaCommands.reverse) false).stateCache
          = false :=
  ⟨List.reverse_perm _, by decide, by decide⟩

/-- C8: when the query of the command at position `i` is run (every `sql.Open`
up to position `i` gave a handle) and fails, the value compared with its
`expect` is the value returned by the most recent earlier query of the cycle
that succeeded, the empty string when there is none; the command passes exactly
when its `expect` equals that value; and some cycle with a failing query runs to
its end and sets the state to true. -/
theorem checkBackend_failed_query_compares_leftover (debug : Bool) (config : configuration)
    (commands : List command) (db : Database) (pre : Bool) (i : Nat)
    (hi : i < commands.length) (hopen : ∀ j, j ≤ i → (db j).openErr = none)
    (hfail : (db i).queryFails = true) :
    (checkBackend debug config commands db pre).stateCache =
        (if (stateAfter debug config commands db commands.length).panicked then pre
          else (stateAfter debug config commands db commands.length).checkOK)
    ∧ (stateAfter debug config commands db (i + 1)).panicked = false
    ∧ (stateAfter debug config commands db (i + 1)).result = leftover db i
    ∧ (stateAfter debug config commands db (i + 1)).checkOK =
        (decide (leftover db i = (commands.get ⟨i, hi⟩).expect) &&
          (stateAfter debug config commands db i).checkOK)
    ∧ ∃ (cmds : List command) (db2 : Database) (j : Nat),
        j < cmds.length ∧ (db2 j).queryFails = true ∧
          (checkBackend debug config cmds db2 pre).panicked = false ∧
          (checkBackend debug config cmds db2 pre).stateCache = true := by
  have hnone : (db i).value = none := by
    simpa [Attempt.queryFails] using hfail
  have hbefore := stateAfter_reached debug config commands db i (Nat.le_of_lt hi)
    (fun j hj => hopen j (Nat.le_of_lt hj))
  have hafter := stateAfter_reached debug config commands db (i + 1) hi
    (fun j hj => hopen j (Nat.le_of_lt_succ hj))
  have hleft : leftover db (i + 1) = leftover db i := by
    rw [leftover, hnone]
  refine ⟨?_, hafter.1, by rw [hafter.2, hleft], ?_, ?_⟩
  · rw [stateAfter_length]
    cases hp : (checkLoop debug config db commands 0 (CheckState.init debug)).panicked <;>
      simp [checkBackend, hp]
  · rw [stateAfter_succ debug config commands db i hi hbefore.1,
      checkCommand_checkOK _ _ _ _ _ _ (hopen i (Nat.le_refl i)), hnone, hbefore.2]
    rfl
  · refine ⟨staleCommands, staleDb, 1, by decide, by decide, ?_, ?_⟩ <;>
      cases debug <;> rfl

/-- Witness for C8: the second query is rejected and is compared with the value
of the first. -/
theorem checkBackend_failed_query_compares_leftover_witness :
    (1 < staleCommands.length ∧ (∀ j, j ≤ 1 → (staleDb j).openErr = none)
      ∧ (staleDb 1).queryFails = true)
    ∧ (stateAfter false sampleConfig staleCommands staleDb 2).result = "up"
    ∧ (checkBackend false sampleConfig staleCommands staleDb false).stateCache = true := by
  have h := checkBackend_failed_query_compares_leftover false sampleConfig staleCommands staleDb
    false 1 (by decide) (by decide) (by decide)
  refine ⟨⟨by decide, by decide, by decide⟩, ?_, ?_⟩
  · rw [h.2.2.1]
    decide
  · rw [h.1]
    decide

/-- C10, evaluated: the driver rejects the data source name, so `sql.Open`
returns an error and a nil handle; the cycle panics at `db.Ping()` of its first
iteration, no query is prepared although the list holds two commands, the state
is not assigned, and the process that ran the cycle has died with status 2. -/
theorem checkBackend_open_error_ends_cycle :
    (rejectingDb 0).openErr.isSome = true
    ∧ (checkBackend false slashConfig sampleCommands rejectingDb true).panicked = true
    ∧ preparedQueries (checkBackend false slashConfig sampleCommands rejectingDb true).calls = []
    ∧ sampleCommands.map command.query = ["SELECT 1", "SELECT 2"]
    ∧ (checkBackend false slashConfig sampleCommands rejectingDb true).stateCache = true
    ∧ ((main ⟨"mybckchk.cfg", false, false, false⟩ slashConfig).step slashConfig sampleCommands
        (Event.tick rejectingDb)).1.exitStatus = some 2 := by
  decide

/-- When every `sql.Open` of the cycle gives a handle, the cycle returns and the
queries handed to `Prepare` are the queries of the commands, in the order of the
list, each once. -/
theorem checkBackend_preparedQueries_of_opened (debug : Bool) (config : configuration)
    (commands : List command) (db : Database) (pre : Bool)
    (hopen : ∀ i, i < commands.length → (db i).openErr = none) :
    (checkBackend debug config commands db pre).panicked = false
    ∧ preparedQueries (checkBackend debug config commands db pre).calls =
        commands.map command.query := by
  have hopen0 : ∀ j, j < commands.length → (db (0 + j)).openErr = none := by
    intro j hj
    simpa using hopen j hj
  have hloop := checkLoop_preparedQueries debug config db commands 0 (CheckState.init debug)
    rfl hopen0
  constructor
  · simp [checkBackend, hloop.1]
  · have hcalls : (checkBackend debug config commands db pre).calls =
        (checkLoop debug config db commands 0 (CheckState.init debug)).calls ++
          deferredCloses (checkLoop debug config db commands 0 (CheckState.init debug)).opened := by
      simp [checkBackend, hloop.1]
    rw [hcalls, preparedQueries_append, hloop.2, preparedQueries_deferredCloses]
    simp [CheckState.init, preparedQueries]

/-! ## Mode selection: properties -/

theorem Process.run_static (config : configuration) (commands : List command) (p : Process)
    (hexit : p.exitStatus = none) (hsched : p.scheduler = false)
    (hlisten : p.listening.isSome = true) (events : List Event) :
    p.run config commands events =
      (p, List.replicate (requestCount events)
        (if p.stateCache then ⟨some 200, "OK"⟩ else ⟨some 500, "NOT OK"⟩)) := by
  induction events with
  | nil => rfl
  | cons e es ih =>
    cases e with
    | tick db =>
      simp [Process.run, Process.step, hsched, ih, requestCount]
    | request r =>
      simp [Process.run, Process.step, hexit, hlisten, ih, requestCount,
        (baseHandler_state p.stateCache r), List.replicate_succ]

theorem Process.run_exited (config : configuration) (commands : List command) (p : Process)
    (hexit : p.exitStatus.isNone = false) (events : List Event) :
    p.run config commands events = (p, []) := by
  induction events with
  | nil => rfl
  | cons e es ih =>
    cases e <;> simp [Process.run, Process.step, hexit, ih]

/-- C5: the modes of `main`.  With `-enable` and `-disable` the process exits
with status 1, starts neither `checkController` nor the listener, and answers
nothing.  With `-enable` alone the state is true, `checkController` is not
started, and after any events the state is true and every request was answered
200 `OK`.  With `-disable` alone the same holds with false and 500 `NOT OK`.
With neither flag `checkController` is started, the state is false and the
server listens. -/
theorem main_mode_selection (cfg : String) (dbg : Bool) (config : configuration)
    (commands : List command) (events : List Event) :
    ((main ⟨cfg, dbg, true, true⟩ config).exitStatus = some 1
      ∧ (main ⟨cfg, dbg, true, true⟩ config).scheduler = false
      ∧ (main ⟨cfg, dbg, true, true⟩ config).listening = none
      ∧ ((main ⟨cfg, dbg, true, true⟩ config).run config commands events).2 = [])
    ∧ ((main ⟨cfg, dbg, true, false⟩ config).exitStatus = none
      ∧ (main ⟨cfg, dbg, true, false⟩ config).stateCache = true
      ∧ (main ⟨cfg, dbg, true, false⟩ config).scheduler = false
      ∧ ((main ⟨cfg, dbg, true, false⟩ config).run config commands events).1.stateCache = true
      ∧ ((main ⟨cfg, dbg, true, false⟩ config).run config commands events).2 =
          List.replicate (requestCount events) ⟨some 200, "OK"⟩)
    ∧ ((main ⟨cfg, dbg, false, true⟩ config).exitStatus = none
      ∧ (main ⟨cfg, dbg, false, true⟩ config).stateCache = false
      ∧ (main ⟨cfg, dbg, false, true⟩ config).scheduler = false
      ∧ ((main ⟨cfg, dbg, false, true⟩ config).run config commands events).1.stateCache = false
      ∧ ((main ⟨cfg, dbg, false, true⟩ config).run config commands events).2 =
          List.replicate (requestCount events) ⟨some 500, "NOT OK"⟩)
    ∧ ((main ⟨cfg, dbg, false, false⟩ config).exitStatus = none
      ∧ (main ⟨cfg, dbg, false, false⟩ config).stateCache = false
      ∧ (main ⟨cfg, dbg, false, false⟩ config).scheduler = true
      ∧ (main ⟨cfg, dbg, false, false⟩ config).listening.isSome = true) := by
  refine ⟨⟨rfl, rfl, rfl, ?_⟩, ⟨rfl, rfl, rfl, ?_, ?_⟩, ⟨rfl, rfl, rfl, ?_, ?_⟩, ⟨rfl, rfl, rfl, rfl⟩⟩
  · rw [Process.run_exited config commands (main ⟨cfg, dbg, true, true⟩ config) rfl]
  · rw [Process.run_static config commands (main ⟨cfg, dbg, true, false⟩ config) rfl rfl rfl]
    rfl
  · rw [Process.run_static config commands (main ⟨cfg, dbg, true, false⟩ config) rfl rfl rfl]
    rfl
  · rw [Process.run_static config commands (main ⟨cfg, dbg, false, true⟩ config) rfl rfl rfl]
    rfl
  · rw [Process.run_static config commands (main ⟨cfg, dbg, false, true⟩ config) rfl rfl rfl]
    rfl

end Mybckchk
